import Mathlib

/-!
Shallow embedding of the trakr filtered-query and bulk-mutation engine:
the services in src/app/services (alarms_service.py, tags_service.py,
routes_service.py), the request validators in src/app/schemas, and the
pooled-connection scope in src/app/db/connection.py, modelled over an
explicit database state.  SQL queries are embedded by their semantics on
list-of-row tables: WHERE clauses become Bool predicates, LEFT JOIN on a
nullable text key yields the matching rows or a single NULL row, ORDER BY
is an insertion sort, LIMIT/OFFSET is take/drop, and UPDATE row counts are
countP over the matching key.
-/

/-- SQL equality between two nullable TEXT values: a NULL operand never
compares equal (the join predicate is not satisfied). -/
def sqlEqS : Option String → Option String → Bool
  | some a, some b => a = b
  | _, _ => false

/-- Python truthiness coalescing used by the services for display fields
(the expression row or "Unknown"): both NULL and the empty string are
falsy and fall back. -/
def pyOr (v : Option String) (fallback : String) : String :=
  match v with
  | none => fallback
  | some s => if s = "" then fallback else s

/-- Whether the first list is an initial segment of the second. -/
def charsLead : List Char → List Char → Bool
  | [], _ => true
  | _ :: _, [] => false
  | a :: as, b :: bs => a == b && charsLead as bs

/-- Whether the first list occurs contiguously inside the second. -/
def charsInside (nee : List Char) : List Char → Bool
  | [] => charsLead nee []
  | c :: cs => charsLead nee (c :: cs) || charsInside nee cs

/-- Postgres ILIKE with the pattern wrapped in percent wildcards, as the
tag model filter does: case-insensitive substring containment. -/
def ilike (s pat : String) : Bool :=
  charsInside pat.toLower.toList s.toLower.toList

/-- Stable insertion of an element into a list relative to a Bool order. -/
def insertLe {α : Type} (le : α → α → Bool) (a : α) : List α → List α
  | [] => [a]
  | b :: bs => if le a b then a :: b :: bs else b :: insertLe le a bs

/-- ORDER BY: insertion sort by a Bool order relation. -/
def sortLe {α : Type} (le : α → α → Bool) (l : List α) : List α :=
  l.foldr (insertLe le) []

/-- A row of the Alarms table (db_init.py plus the handling columns
written by handle_alarms). -/
structure AlarmRow where
  sn : Nat
  organization : String
  imei : Option String
  warn_type : String
  time : Int
  check_the_time : Option Int
  check_time : Option String
  is_handled : Bool
  handled_by : Option String
  handled_at : Option Int
  handle_reason : Option String
deriving DecidableEq

/-- A row of the Tags table. -/
structure TagRow where
  sn : Nat
  organization : String
  imei : Option String
  signal : Option Int
  power : Option Int
  charge_status : Option String
  tracking_update_time : Option Int
  data_update_time : Option Int
  bluetooth_mark : Option String
deriving DecidableEq

/-- A row of the Tracking_Objects table. -/
structure TrackingObjectRow where
  sn : Nat
  organization : String
  name : Option String
  role : Option String
  mac : Option String
deriving DecidableEq

/-- A row of the Organizations table. -/
structure OrganizationRow where
  id : Nat
  organization_name : String
  title : Option String
deriving DecidableEq

/-- A row of the Route_List table. -/
structure RouteRow where
  sn : Nat
  terminal_id : Option String
  tracking_time : Int
  gps_x : Int
  gps_y : Int
deriving DecidableEq

/-- The database state: the five tables the specified core touches. -/
structure DB where
  alarms : List AlarmRow
  tags : List TagRow
  tracking_objects : List TrackingObjectRow
  organizations : List OrganizationRow
  routes : List RouteRow
deriving DecidableEq

/-- AlarmFilter (src/app/schemas/alarms.py): organization is required,
the remaining filter fields are optional, pagination defaults apply. -/
structure AlarmFilter where
  organization : String
  warn_type : Option String := none
  start_time : Option Int := none
  end_time : Option Int := none
  page : Nat := 1
  page_size : Nat := 10

/-- TagFilter (src/app/schemas/tags.py). -/
structure TagFilter where
  organization : Option String := none
  model : Option String := none
  page : Nat := 1
  page_size : Nat := 10

/-- RouteFilter (src/app/schemas/routes.py). -/
structure RouteFilter where
  organization : String
  start_time : Option Int := none
  end_time : Option Int := none
  page : Nat := 1
  page_size : Nat := 10

/-- Validation failures raised by the pydantic id-list validators. -/
inductive ValErr where
  | emptyIds
  | tooMany
  | duplicates
deriving DecidableEq

/-- AlarmHandleRequest.validate_alarm_ids (src/app/schemas/alarms.py):
rejects an empty list, a list longer than 100, and a list whose distinct
count differs from its length. -/
def validate_alarm_ids (v : List Nat) : Except ValErr (List Nat) :=
  if v = [] then .error .emptyIds
  else if v.length > 100 then .error .tooMany
  else if v.dedup.length ≠ v.length then .error .duplicates
  else .ok v

/-- TagTransferRequest.validate_tag_ids (src/app/schemas/tags.py):
rejects an empty list and a list longer than 100; there is no duplicate
check in the source. -/
def validate_tag_ids (v : List Nat) : Except ValErr (List Nat) :=
  if v = [] then .error .emptyIds
  else if v.length > 100 then .error .tooMany
  else .ok v

/-- WHERE clause of the alarm count query in get_alarms_with_filters:
organization equality plus the optional warn_type / start_time / end_time
predicates, appended in lockstep with the row query. -/
def alarmCountPred (f : AlarmFilter) (a : AlarmRow) : Bool :=
  (a.organization = f.organization : Bool) &&
  (match f.warn_type with | some w => a.warn_type = w | none => true) &&
  (match f.start_time with | some s => decide (s ≤ a.time) | none => true) &&
  (match f.end_time with | some e => decide (a.time ≤ e) | none => true)

/-- WHERE clause of the alarm row-selection query in
get_alarms_with_filters (the same predicates are appended to base_query
and count_query together). -/
def alarmRowPred (f : AlarmFilter) (a : AlarmRow) : Bool :=
  (a.organization = f.organization : Bool) &&
  (match f.warn_type with | some w => a.warn_type = w | none => true) &&
  (match f.start_time with | some s => decide (s ≤ a.time) | none => true) &&
  (match f.end_time with | some e => decide (a.time ≤ e) | none => true)

/-- LEFT JOIN Tags t ON key = t.imei: the matching tag rows, or one NULL
row when none match. -/
def leftJoinTags (tags : List TagRow) (k : Option String) : List (Option TagRow) :=
  let ms := tags.filter (fun t => sqlEqS k t.imei)
  if ms.isEmpty then [none] else ms.map some

/-- LEFT JOIN Tracking_Objects ON key = mac: the matching rows, or one
NULL row when none match. -/
def leftJoinTrackingObjects (tos : List TrackingObjectRow) (k : Option String) :
    List (Option TrackingObjectRow) :=
  let ms := tos.filter (fun o => sqlEqS k o.mac)
  if ms.isEmpty then [none] else ms.map some

/-- LEFT JOIN Organizations ON key = organization_name. -/
def leftJoinOrganizations (orgs : List OrganizationRow) (k : Option String) :
    List (Option OrganizationRow) :=
  let ms := orgs.filter (fun o => sqlEqS k (some o.organization_name))
  if ms.isEmpty then [none] else ms.map some

/-- The two-step left join of the alarm queries: Alarms LEFT JOIN Tags ON
a.imei = t.imei LEFT JOIN Tracking_Objects ON t.imei = mac. -/
def alarmJoinRows (db : DB) (a : AlarmRow) :
    List (Option TagRow × Option TrackingObjectRow) :=
  (leftJoinTags db.tags a.imei).flatMap (fun t =>
    (leftJoinTrackingObjects db.tracking_objects (t.bind TagRow.imei)).map (fun o => (t, o)))

/-- The Alarm response record built by the services (schemas/alarms.py
Alarm, with imei and tracking_object already coalesced for display). -/
structure AlarmOut where
  sn : Nat
  organization : String
  imei : String
  tracking_object : String
  warn_type : String
  time : Int
  check_the_time : Option Int
  check_time : Option String
  is_handled : Bool
  handled_by : Option String
  handled_at : Option Int
  handle_reason : Option String
deriving DecidableEq

/-- Row-to-response mapping shared verbatim by get_alarms_with_filters
and get_alarm_by_id: the joined tag imei and tracking-object name are
coalesced with "Unknown". -/
def alarmDisplay (x : AlarmRow × Option TagRow × Option TrackingObjectRow) : AlarmOut :=
  { sn := x.1.sn
    organization := x.1.organization
    imei := pyOr (x.2.1.bind TagRow.imei) "Unknown"
    tracking_object := pyOr (x.2.2.bind TrackingObjectRow.name) "Unknown"
    warn_type := x.1.warn_type
    time := x.1.time
    check_the_time := x.1.check_the_time
    check_time := x.1.check_time
    is_handled := x.1.is_handled
    handled_by := x.1.handled_by
    handled_at := x.1.handled_at
    handle_reason := x.1.handle_reason }

/-- The unpaginated result set of the alarm row query: filtered base rows
each expanded by the left joins. -/
def alarmSelectedRows (db : DB) (f : AlarmFilter) :
    List (AlarmRow × Option TagRow × Option TrackingObjectRow) :=
  (db.alarms.filter (alarmRowPred f)).flatMap
    (fun a => (alarmJoinRows db a).map (fun p => (a, p)))

/-- ORDER BY a.time DESC. -/
def alarmOrderLe (x y : AlarmRow × Option TagRow × Option TrackingObjectRow) : Bool :=
  decide (y.1.time ≤ x.1.time)

/-- The dictionary returned by get_alarms_with_filters. -/
structure AlarmListResult where
  alarms : List AlarmOut
  page : Nat
  page_size : Nat
  total_records : Nat
deriving DecidableEq

/-- get_alarms_with_filters (src/app/services/alarms_service.py): runs the
count query without pagination, then the row query ordered by time
descending with LIMIT page_size OFFSET (page-1)*page_size. -/
def get_alarms_with_filters (db : DB) (f : AlarmFilter) : AlarmListResult :=
  let total_count := (db.alarms.filter (alarmCountPred f)).length
  let offset := (f.page - 1) * f.page_size
  let rows := ((sortLe alarmOrderLe (alarmSelectedRows db f)).drop offset).take f.page_size
  { alarms := rows.map alarmDisplay
    page := f.page
    page_size := f.page_size
    total_records := total_count }

/-- get_alarm_by_id (src/app/services/alarms_service.py): the same joined
select with WHERE a.sn = alarm_id, taking the first fetched row. -/
def get_alarm_by_id (db : DB) (alarm_id : Nat) : Option AlarmOut :=
  (((db.alarms.filter (fun a => a.sn = alarm_id)).flatMap
      (fun a => (alarmJoinRows db a).map (fun p => (a, p)))).head?).map alarmDisplay

/-- The errors raised by handle_alarms before any mutation, with the
HTTP status the service attaches to each (alarms_service.py lines
194-216). -/
inductive AlarmErr where
  | alarmsNotFound (missing_ids : List Nat)
  | orgMismatch
  | alreadyHandled (ids : List Nat)
deriving DecidableEq

/-- Status code attached to each handle_alarms rejection. -/
def AlarmErr.status : AlarmErr → Nat
  | .alarmsNotFound _ => 404
  | .orgMismatch => 400
  | .alreadyHandled _ => 400

/-- The success dictionary returned by handle_alarms. -/
structure AlarmHandleResult where
  message : String
  handled_count : Nat
  failed_count : Nat
  failed_alarm_ids : List Nat
  handle_time : Int
deriving DecidableEq

/-- The SET clause of the per-alarm UPDATE in handle_alarms. -/
def setHandled (handled_by : String) (now : Int) (reason : Option String)
    (a : AlarmRow) : AlarmRow :=
  { a with is_handled := true, handled_by := some handled_by,
           handled_at := some now, handle_reason := reason }

/-- The apply loop of handle_alarms (lines 218-238): one UPDATE per id in
input order against the evolving uncommitted state; an update whose
rowcount is zero records the id as failed, otherwise it counts as
handled.  Returns the post-loop table, the handled count and the failed
ids. -/
def applyHandleLoop (alarms : List AlarmRow) (ids : List Nat) (handled_by : String)
    (now : Int) (reason : Option String) : List AlarmRow × Nat × List Nat :=
  match ids with
  | [] => (alarms, 0, [])
  | id :: rest =>
    let rowcount := alarms.countP (fun a => a.sn = id)
    let alarms1 := alarms.map (fun a =>
      if a.sn = id then setHandled handled_by now reason a else a)
    let r := applyHandleLoop alarms1 rest handled_by now reason
    if rowcount > 0 then (r.1, r.2.1 + 1, r.2.2) else (r.1, r.2.1, id :: r.2.2)

/-- The existence-phase fetch of handle_alarms: SELECT sn, organization,
is_handled FROM Alarms WHERE sn = ANY(ids), one query. -/
def alarmsFetch (db : DB) (ids : List Nat) : List AlarmRow :=
  db.alarms.filter (fun a => decide (a.sn ∈ ids))

/-- handle_alarms (src/app/services/alarms_service.py): existence check,
same-organization check, already-handled check, then the per-item update
loop followed by one commit.  A raised error leaves the database
unchanged (the transaction context never commits); the committed state is
the first component of the result. -/
def handle_alarms (db : DB) (alarm_ids : List Nat) (reason : Option String)
    (handled_by : String) (now : Int) : DB × Except AlarmErr AlarmHandleResult :=
  let existing_alarms := alarmsFetch db alarm_ids
  if existing_alarms.length ≠ alarm_ids.length then
    let existing_ids := existing_alarms.map AlarmRow.sn
    (db, .error (.alarmsNotFound (alarm_ids.filter (fun i => decide (i ∉ existing_ids)))))
  else if ((existing_alarms.map AlarmRow.organization).dedup).length > 1 then
    (db, .error .orgMismatch)
  else
    let already_handled := (existing_alarms.filter (fun a => a.is_handled)).map AlarmRow.sn
    if already_handled ≠ [] then
      (db, .error (.alreadyHandled already_handled))
    else
      let r := applyHandleLoop db.alarms alarm_ids handled_by now reason
      ({ db with alarms := r.1 },
        .ok { message := "Alarm handling completed"
              handled_count := r.2.1
              failed_count := r.2.2.length
              failed_alarm_ids := r.2.2
              handle_time := now })

/-- INNER JOIN Organizations o ON t.organization = o.organization_name,
as used by every tag query. -/
def tagOrgJoin (orgs : List OrganizationRow) (t : TagRow) : List OrganizationRow :=
  orgs.filter (fun o => o.organization_name = t.organization)

/-- FROM Tags t JOIN Organizations o: the joined pairs underlying both
tag queries. -/
def tagJoinRows (db : DB) : List (TagRow × OrganizationRow) :=
  db.tags.flatMap (fun t => (tagOrgJoin db.organizations t).map (fun o => (t, o)))

/-- WHERE clause of the tag count query in get_tags_with_filters. -/
def tagCountPred (f : TagFilter) (t : TagRow) (o : OrganizationRow) : Bool :=
  (match f.organization with | some s => (o.organization_name = s : Bool) | none => true) &&
  (match f.model with
   | some m => (match t.imei with | some i => ilike i m | none => false)
   | none => true)

/-- WHERE clause of the tag row-selection query (appended in lockstep
with the count query). -/
def tagRowPred (f : TagFilter) (t : TagRow) (o : OrganizationRow) : Bool :=
  (match f.organization with | some s => (o.organization_name = s : Bool) | none => true) &&
  (match f.model with
   | some m => (match t.imei with | some i => ilike i m | none => false)
   | none => true)

/-- The Tag response record (schemas/tags.py Tag): the organization field
is the joined organization_name. -/
structure TagOut where
  sn : Nat
  organization : String
  imei : Option String
  signal : Option Int
  power : Option Int
  charge_status : Option String
  tracking_update_time : Option Int
  data_update_time : Option Int
  bluetooth_mark : Option String
deriving DecidableEq

/-- Row-to-response mapping shared by get_tags_with_filters and
get_tag_by_id. -/
def tagDisplay (p : TagRow × OrganizationRow) : TagOut :=
  { sn := p.1.sn
    organization := p.2.organization_name
    imei := p.1.imei
    signal := p.1.signal
    power := p.1.power
    charge_status := p.1.charge_status
    tracking_update_time := p.1.tracking_update_time
    data_update_time := p.1.data_update_time
    bluetooth_mark := p.1.bluetooth_mark }

/-- The dictionary returned by get_tags_with_filters. -/
structure TagListResult where
  tags : List TagOut
  total_count : Nat
  page : Nat
  page_size : Nat
deriving DecidableEq

/-- ORDER BY t.sn. -/
def tagOrderLe (x y : TagRow × OrganizationRow) : Bool :=
  decide (x.1.sn ≤ y.1.sn)

/-- get_tags_with_filters (src/app/services/tags_service.py): count query
without pagination, then the row query ordered by sn with LIMIT/OFFSET. -/
def get_tags_with_filters (db : DB) (f : TagFilter) : TagListResult :=
  let total_count := ((tagJoinRows db).filter (fun p => tagCountPred f p.1 p.2)).length
  let offset := (f.page - 1) * f.page_size
  let rows := ((sortLe tagOrderLe
      ((tagJoinRows db).filter (fun p => tagRowPred f p.1 p.2))).drop offset).take f.page_size
  { tags := rows.map tagDisplay
    total_count := total_count
    page := f.page
    page_size := f.page_size }

/-- get_tag_by_id (src/app/services/tags_service.py): the same inner join
with WHERE t.sn = tag_id, taking the first fetched row. -/
def get_tag_by_id (db : DB) (tag_id : Nat) : Option TagOut :=
  (((db.tags.filter (fun t => t.sn = tag_id)).flatMap
      (fun t => (tagOrgJoin db.organizations t).map (fun o => (t, o)))).head?).map tagDisplay

/-- The errors raised by transfer_tags before any mutation; both carry
HTTP status 404 in the service. -/
inductive TagErr where
  | targetOrgNotFound
  | tagsNotFound (missing_ids : List Nat)
deriving DecidableEq

/-- Status code attached to each transfer_tags rejection. -/
def TagErr.status : TagErr → Nat
  | .targetOrgNotFound => 404
  | .tagsNotFound _ => 404

/-- The success dictionary returned by transfer_tags. -/
structure TagTransferResult where
  message : String
  transferred_count : Nat
  failed_count : Nat
  failed_tag_ids : List Nat
  transfer_time : Int
deriving DecidableEq

/-- The apply loop of transfer_tags (lines 189-205): one UPDATE Tags SET
organization per id in input order; zero rowcount records the id as
failed. -/
def applyTransferLoop (tags : List TagRow) (ids : List Nat) (target_org : String) :
    List TagRow × Nat × List Nat :=
  match ids with
  | [] => (tags, 0, [])
  | id :: rest =>
    let rowcount := tags.countP (fun t => t.sn = id)
    let tags1 := tags.map (fun t =>
      if t.sn = id then { t with organization := target_org } else t)
    let r := applyTransferLoop tags1 rest target_org
    if rowcount > 0 then (r.1, r.2.1 + 1, r.2.2) else (r.1, r.2.1, id :: r.2.2)

/-- The existence-phase fetch of transfer_tags: SELECT sn, organization
FROM Tags WHERE sn = ANY(ids), one query. -/
def tagsFetch (db : DB) (ids : List Nat) : List TagRow :=
  db.tags.filter (fun t => decide (t.sn ∈ ids))

/-- transfer_tags (src/app/services/tags_service.py): target-organization
lookup by id, existence check over the tag ids, then the per-item update
loop followed by one commit.  A raised error leaves the database
unchanged. -/
def transfer_tags (db : DB) (tag_ids : List Nat) (new_organization_id : Nat)
    (now : Int) : DB × Except TagErr TagTransferResult :=
  match (db.organizations.filter (fun o => o.id = new_organization_id)).head? with
  | none => (db, .error .targetOrgNotFound)
  | some target_org =>
    let existing_tags := tagsFetch db tag_ids
    if existing_tags.length ≠ tag_ids.length then
      let existing_ids := existing_tags.map TagRow.sn
      (db, .error (.tagsNotFound (tag_ids.filter (fun i => decide (i ∉ existing_ids)))))
    else
      let r := applyTransferLoop db.tags tag_ids target_org.organization_name
      ({ db with tags := r.1 },
        .ok { message := "Tag transfer completed"
              transferred_count := r.2.1
              failed_count := r.2.2.length
              failed_tag_ids := r.2.2
              transfer_time := now })

/-- The optional time-range predicates shared by both route queries. -/
def routeTimePred (f : RouteFilter) (r : RouteRow) : Bool :=
  (match f.start_time with | some s => decide (s ≤ r.tracking_time) | none => true) &&
  (match f.end_time with | some e => decide (r.tracking_time ≤ e) | none => true)

/-- The result set of the route row-selection query in
get_routes_with_filters: Route_List LEFT JOIN Tags LEFT JOIN
Tracking_Objects LEFT JOIN Organizations, WHERE o.organization_name
equals the filter organization plus the time range. -/
def routeSelectedRows (db : DB) (f : RouteFilter) :
    List (RouteRow × Option TagRow × Option TrackingObjectRow × Option OrganizationRow) :=
  (db.routes.flatMap (fun r =>
    (leftJoinTags db.tags r.terminal_id).flatMap (fun t =>
      (leftJoinTrackingObjects db.tracking_objects (t.bind TagRow.imei)).flatMap (fun o =>
        (leftJoinOrganizations db.organizations (t.map TagRow.organization)).map
          (fun g => (r, t, o, g)))))).filter
    (fun x => sqlEqS (x.2.2.2.map OrganizationRow.organization_name) (some f.organization) &&
      routeTimePred f x.1)

/-- The result set of the route count query: the same joins except that
the count query of the source omits the Tracking_Objects join. -/
def routeCountRows (db : DB) (f : RouteFilter) :
    List (RouteRow × Option TagRow × Option OrganizationRow) :=
  (db.routes.flatMap (fun r =>
    (leftJoinTags db.tags r.terminal_id).flatMap (fun t =>
      (leftJoinOrganizations db.organizations (t.map TagRow.organization)).map
        (fun g => (r, t, g))))).filter
    (fun x => sqlEqS (x.2.2.map OrganizationRow.organization_name) (some f.organization) &&
      routeTimePred f x.1)

/-- The Route response record (schemas/routes.py Route): sn is the
ROW_NUMBER of the row, not the table key. -/
structure RouteOut where
  sn : Nat
  terminal_id : String
  tracking_object : String
  tracking_time : Int
  gps_x : Int
  gps_y : Int
deriving DecidableEq

/-- ORDER BY r.tracking_time DESC. -/
def routeOrderLe
    (x y : RouteRow × Option TagRow × Option TrackingObjectRow × Option OrganizationRow) :
    Bool :=
  decide (y.1.tracking_time ≤ x.1.tracking_time)

/-- The Route display fields: coalesced joined tag imei and
tracking-object name. -/
def routeDisplay (rownum : Nat)
    (x : RouteRow × Option TagRow × Option TrackingObjectRow × Option OrganizationRow) :
    RouteOut :=
  { sn := rownum
    terminal_id := pyOr (x.2.1.bind TagRow.imei) "Unknown"
    tracking_object := pyOr (x.2.2.1.bind TrackingObjectRow.name) "Unknown"
    tracking_time := x.1.tracking_time
    gps_x := x.1.gps_x
    gps_y := x.1.gps_y }

/-- The dictionary returned by get_routes_with_filters. -/
structure RouteListResult where
  routes : List RouteOut
  page : Nat
  page_size : Nat
  total_records : Nat
deriving DecidableEq

/-- get_routes_with_filters (src/app/services/routes_service.py): count
query without pagination, row query ordered by tracking_time descending
with ROW_NUMBER assigned over the full ordered set, then LIMIT/OFFSET. -/
def get_routes_with_filters (db : DB) (f : RouteFilter) : RouteListResult :=
  let total_count := (routeCountRows db f).length
  let numbered := (sortLe routeOrderLe (routeSelectedRows db f)).enum
  let offset := (f.page - 1) * f.page_size
  let rows := (numbered.drop offset).take f.page_size
  { routes := rows.map (fun p => routeDisplay (p.1 + 1) p.2)
    page := f.page
    page_size := f.page_size
    total_records := total_count }

/-- get_route_by_id (src/app/services/routes_service.py): Route_List LEFT
JOIN Tags LEFT JOIN Tracking_Objects with WHERE r.sn = route_id (no
organization join), taking the first fetched row, whose ROW_NUMBER over
the filtered set is 1. -/
def get_route_by_id (db : DB) (route_id : Nat) : Option RouteOut :=
  ((sortLe (fun x y => decide (y.1.tracking_time ≤ x.1.tracking_time))
      ((db.routes.filter (fun r => r.sn = route_id)).flatMap (fun r =>
        (leftJoinTags db.tags r.terminal_id).flatMap (fun t =>
          (leftJoinTrackingObjects db.tracking_objects (t.bind TagRow.imei)).map
            (fun o => (r, t, o)))))).head?).map
    (fun x => { sn := 1
                terminal_id := pyOr (x.2.1.bind TagRow.imei) "Unknown"
                tracking_object := pyOr (x.2.2.bind TrackingObjectRow.name) "Unknown"
                tracking_time := x.1.tracking_time
                gps_x := x.1.gps_x
                gps_y := x.1.gps_y })

/-- The connection pool observed through its acquire/release counters. -/
structure Pool where
  acquired : Nat
  released : Nat
deriving DecidableEq

/-- pool_instance.getconn(). -/
def Pool.getconn (p : Pool) : Pool := { p with acquired := p.acquired + 1 }

/-- pool_instance.putconn(conn). -/
def Pool.putconn (p : Pool) : Pool := { p with released := p.released + 1 }

/-- The pooled branch of get_conn (src/app/db/connection.py lines 50-55):
conn = pool.getconn(); try: yield conn to the operation body; finally:
pool.putconn(conn).  The body outcome is an Except value covering both
the normal return and the raising exit of the operation; the finally
clause runs on both. -/
def withPooledConn {E A : Type} (p : Pool) (body : Except E A) : Pool × Except E A :=
  let p1 := p.getconn
  match body with
  | .ok a => (p1.putconn, .ok a)
  | .error e => (p1.putconn, .error e)

theorem length_insertLe {α : Type} (le : α → α → Bool) (a : α) (l : List α) :
    (insertLe le a l).length = l.length + 1 := by
  induction l with
  | nil => rfl
  | cons b bs ih =>
    by_cases h : le a b = true
    · simp [insertLe, h]
    · simp [insertLe, h, ih]

theorem length_sortLe {α : Type} (le : α → α → Bool) (l : List α) :
    (sortLe le l).length = l.length := by
  induction l with
  | nil => rfl
  | cons b bs ih =>
    show (insertLe le b (sortLe le bs)).length = bs.length + 1
    rw [length_insertLe, ih]

theorem mem_insertLe {α : Type} (le : α → α → Bool) (a x : α) (l : List α) :
    x ∈ insertLe le a l ↔ x = a ∨ x ∈ l := by
  induction l with
  | nil => simp [insertLe]
  | cons b bs ih =>
    by_cases h : le a b = true
    · simp [insertLe, h, List.mem_cons]
    · simp [insertLe, h, List.mem_cons, ih]
      tauto

theorem mem_sortLe {α : Type} (le : α → α → Bool) (x : α) (l : List α) :
    x ∈ sortLe le l ↔ x ∈ l := by
  induction l with
  | nil => simp [sortLe]
  | cons b bs ih =>
    show x ∈ insertLe le b (sortLe le bs) ↔ _
    rw [mem_insertLe, ih, List.mem_cons]

theorem pairwise_filter_key {α : Type} (key : α → Nat) (i : Nat) (a : α) :
    ∀ l : List α, l.Pairwise (fun x y => key x ≠ key y) → a ∈ l → key a = i →
      l.filter (fun x => key x = i) = [a] := by
  intro l
  induction l with
  | nil => intro _ ha _; cases ha
  | cons b bs ih =>
    intro hp hmem hkey
    rcases List.pairwise_cons.mp hp with ⟨hb, hbs⟩
    rcases List.mem_cons.mp hmem with rfl | hmem2
    · rw [List.filter_cons, if_pos (by simp [hkey])]
      have : bs.filter (fun x => key x = i) = [] := by
        rw [List.filter_eq_nil_iff]
        intro x hx
        simp only [decide_eq_true_eq]
        intro hxi
        exact hb x hx (hkey.trans hxi.symm)
      rw [this]
    · have hbne : ¬ (key b = i) := by
        intro hbi
        exact hb a hmem2 (hbi.trans hkey.symm)
      rw [List.filter_cons, if_neg (by simpa using hbne)]
      exact ih hbs hmem2 hkey

theorem key_inj_of_pairwise {α : Type} (key : α → Nat) :
    ∀ l : List α, l.Pairwise (fun x y => key x ≠ key y) →
      ∀ a ∈ l, ∀ b ∈ l, key a = key b → a = b := by
  intro l
  induction l with
  | nil => intro _ a ha; cases ha
  | cons c cs ih =>
    intro hp a ha b hb hk
    rcases List.pairwise_cons.mp hp with ⟨hc, hcs⟩
    rcases List.mem_cons.mp ha with rfl | ha2
    · rcases List.mem_cons.mp hb with rfl | hb2
      · rfl
      · exact absurd hk (hc b hb2)
    · rcases List.mem_cons.mp hb with rfl | hb2
      · exact absurd hk.symm (hc a ha2)
      · exact ih hcs a ha2 b hb2 hk

theorem dedup_length_eq_iff {α : Type} [DecidableEq α] (l : List α) :
    l.dedup.length = l.length ↔ l.Nodup := by
  constructor
  · intro h
    have he := (List.dedup_sublist l).eq_of_length h
    rw [← he]
    exact List.nodup_dedup l
  · intro h
    rw [List.dedup_eq_self.mpr h]

theorem mem_map_key_filter {α : Type} (key : α → Nat) (l : List α) (ids : List Nat)
    (i : Nat) (hi : i ∈ ids) :
    i ∈ (l.filter (fun a => decide (key a ∈ ids))).map key ↔ i ∈ l.map key := by
  simp only [List.mem_map, List.mem_filter]
  constructor
  · rintro ⟨a, ⟨ha, _⟩, rfl⟩
    exact ⟨a, ha, rfl⟩
  · rintro ⟨a, ha, rfl⟩
    exact ⟨a, ⟨ha, by simpa using hi⟩, rfl⟩

/-- C4 counterexample: a tag bulk-transfer id list with a duplicate
passes TagTransferRequest.validate_tag_ids, contradicting the claim that
for both bulk operations a duplicate id is rejected as an
input-validation failure. -/
theorem trakr_C4_cex : validate_tag_ids [1, 1] = .ok [1, 1] := rfl

/-- C4 amended: for the alarm bulk-handle request, validation accepts an
id list exactly when it is non-empty, at most 100 long, and free of
duplicates; for the tag bulk-transfer request, validation accepts exactly
when it is non-empty and at most 100 long — the duplicate check exists
only on the alarm side, so a duplicated tag id list passes validation. -/
theorem trakr_C4 :
    (∀ v : List Nat, validate_alarm_ids v = .ok v ↔ v ≠ [] ∧ v.length ≤ 100 ∧ v.Nodup) ∧
    (∀ v : List Nat, validate_tag_ids v = .ok v ↔ v ≠ [] ∧ v.length ≤ 100) := by
  constructor
  · intro v
    unfold validate_alarm_ids
    split_ifs with h1 h2 h3
    · exact iff_of_false (by simp) (fun hc => hc.1 h1)
    · exact iff_of_false (by simp) (fun hc => by omega)
    · exact iff_of_false (by simp)
        (fun hc => h3 ((dedup_length_eq_iff v).mpr hc.2.2))
    · exact iff_of_true rfl ⟨h1, by omega, (dedup_length_eq_iff v).mp (by omega)⟩
  · intro v
    unfold validate_tag_ids
    split_ifs with h1 h2
    · exact iff_of_false (by simp) (fun hc => hc.1 h1)
    · exact iff_of_false (by simp) (fun hc => by omega)
    · exact iff_of_true rfl ⟨h1, by omega⟩

/-- C4 witness: the amended characterizations applied at concrete inputs:
a clean list passes the alarm validator and the duplicated list passes
the tag validator. -/
theorem trakr_C4_witness :
    validate_alarm_ids [1, 2] = .ok [1, 2] ∧ validate_tag_ids [7, 7] = .ok [7, 7] :=
  ⟨(trakr_C4.1 [1, 2]).mpr ⟨by decide, by decide, by decide⟩,
   (trakr_C4.2 [7, 7]).mpr ⟨by decide, by decide⟩⟩

/-- C9: the pooled branch of get_conn acquires one connection and, by its
try/finally, releases it back to the pool on both exit paths of the
operation body (normal return and raised error); a balanced pool stays
balanced, and the body outcome passes through untouched. -/
theorem trakr_C9 : ∀ (p : Pool) (E A : Type) (body : Except E A),
    (withPooledConn p body).1.acquired = p.acquired + 1 ∧
    (withPooledConn p body).1.released = p.released + 1 ∧
    (p.released = p.acquired →
      (withPooledConn p body).1.released = (withPooledConn p body).1.acquired) ∧
    (withPooledConn p body).2 = body := by
  intro p E A body
  cases body with
  | ok a =>
    refine ⟨rfl, rfl, fun h => ?_, rfl⟩
    simp [withPooledConn, Pool.getconn, Pool.putconn, h]
  | error e =>
    refine ⟨rfl, rfl, fun h => ?_, rfl⟩
    simp [withPooledConn, Pool.getconn, Pool.putconn, h]

/-- C9 witness: release equals acquire after a pooled operation that
raised, starting from a balanced pool. -/
theorem trakr_C9_witness :
    (withPooledConn { acquired := 3, released := 3 }
        (Except.error () : Except Unit Nat)).1.released =
      (withPooledConn { acquired := 3, released := 3 }
        (Except.error () : Except Unit Nat)).1.acquired :=
  (trakr_C9 { acquired := 3, released := 3 } Unit Nat (Except.error ())).2.2.1 rfl

/-- C2: in both bulk mutations the existence phase fetches the targets in
one query, and when it returns fewer rows than requested ids the whole
operation fails with the NotFound error naming exactly the requested ids
that are absent from the table, the database state unchanged (for the tag
transfer the target organization must resolve first, since that check
precedes the existence phase in the source). -/
theorem trakr_C2 : ∀ (db : DB) (ids : List Nat) (reason : Option String)
    (hb : String) (now : Int) (oid : Nat) (g : OrganizationRow),
    ((alarmsFetch db ids).length < ids.length →
      handle_alarms db ids reason hb now =
        (db, .error (.alarmsNotFound
          (ids.filter (fun i => decide (i ∉ db.alarms.map AlarmRow.sn)))))) ∧
    ((db.organizations.filter (fun o => o.id = oid)).head? = some g →
      (tagsFetch db ids).length < ids.length →
      transfer_tags db ids oid now =
        (db, .error (.tagsNotFound
          (ids.filter (fun i => decide (i ∉ db.tags.map TagRow.sn)))))) := by
  intro db ids reason hb now oid g
  constructor
  · intro h
    have hne : (alarmsFetch db ids).length ≠ ids.length := Nat.ne_of_lt h
    have hfil : ids.filter (fun i => decide (i ∉ (alarmsFetch db ids).map AlarmRow.sn)) =
        ids.filter (fun i => decide (i ∉ db.alarms.map AlarmRow.sn)) := by
      refine List.filter_congr (fun i hi => ?_)
      exact decide_eq_decide.mpr
        (not_congr (mem_map_key_filter AlarmRow.sn db.alarms ids i hi))
    simp only [handle_alarms, if_pos hne]
    rw [hfil]
  · intro hg h
    have hne : (tagsFetch db ids).length ≠ ids.length := Nat.ne_of_lt h
    have hfil : ids.filter (fun i => decide (i ∉ (tagsFetch db ids).map TagRow.sn)) =
        ids.filter (fun i => decide (i ∉ db.tags.map TagRow.sn)) := by
      refine List.filter_congr (fun i hi => ?_)
      exact decide_eq_decide.mpr
        (not_congr (mem_map_key_filter TagRow.sn db.tags ids i hi))
    simp only [transfer_tags, hg, if_pos hne]
    rw [hfil]

/-- C2 witness database: two alarms and one tag, ids 1, 2 and 9. -/
def dbC2 : DB :=
  { alarms :=
      [{ sn := 1, organization := "acme", imei := some "111", warn_type := "geofence",
         time := 10, check_the_time := none, check_time := none, is_handled := false,
         handled_by := none, handled_at := none, handle_reason := none },
       { sn := 2, organization := "acme", imei := none, warn_type := "low_battery",
         time := 20, check_the_time := none, check_time := none, is_handled := false,
         handled_by := none, handled_at := none, handle_reason := none }]
    tags :=
      [{ sn := 9, organization := "acme", imei := some "111", signal := some 4,
         power := some 80, charge_status := none, tracking_update_time := none,
         data_update_time := none, bluetooth_mark := none }]
    tracking_objects := []
    organizations := [{ id := 5, organization_name := "acme", title := none }]
    routes := [] }

/-- C2 witness: requesting alarm ids 1 and 3 (3 missing) rejects with
NotFound naming exactly 3, and requesting tag ids 9 and 4 (4 missing)
rejects with NotFound naming exactly 4; both leave the database as it
was. -/
theorem trakr_C2_witness :
    handle_alarms dbC2 [1, 3] none "op" 50 =
      (dbC2, .error (.alarmsNotFound [3])) ∧
    transfer_tags dbC2 [9, 4] 5 50 =
      (dbC2, .error (.tagsNotFound [4])) :=
  ⟨(trakr_C2 dbC2 [1, 3] none "op" 50 5
      { id := 5, organization_name := "acme", title := none }).1 (by decide),
   (trakr_C2 dbC2 [9, 4] none "op" 50 5
      { id := 5, organization_name := "acme", title := none }).2 rfl (by decide)⟩

/-- C1: when every requested alarm exists, the bulk handle is rejected
wholesale before any update — with the organization-mismatch error when
the fetched targets span more than one organization, and with the
already-handled error naming exactly the already handled ids when any
fetched target has is_handled set; in both cases the returned state is
the input state, so no alarm's handling fields change.  Both rejections
carry HTTP status 400 in the source (the specification's Conflict
class). -/
theorem trakr_C1 : ∀ (db : DB) (ids : List Nat) (reason : Option String)
    (hb : String) (now : Int),
    (alarmsFetch db ids).length = ids.length →
    ((((alarmsFetch db ids).map AlarmRow.organization).dedup.length > 1 →
        handle_alarms db ids reason hb now = (db, .error .orgMismatch)) ∧
     (¬ ((alarmsFetch db ids).map AlarmRow.organization).dedup.length > 1 →
        ((alarmsFetch db ids).filter (fun a => a.is_handled)).map AlarmRow.sn ≠ [] →
        handle_alarms db ids reason hb now =
          (db, .error (.alreadyHandled
            (((alarmsFetch db ids).filter (fun a => a.is_handled)).map AlarmRow.sn)))) ∧
     AlarmErr.status .orgMismatch = 400 ∧
     (∀ l, AlarmErr.status (.alreadyHandled l) = 400)) := by
  intro db ids reason hb now hex
  have hexne : ¬ (alarmsFetch db ids).length ≠ ids.length := by simpa using hex
  refine ⟨fun horg => ?_, fun horg hhand => ?_, rfl, fun l => rfl⟩
  · simp only [handle_alarms, if_neg hexne, if_pos horg]
  · simp only [handle_alarms, if_neg hexne, if_neg horg, if_pos hhand]

/-- C1 witness: a mixed batch over alarms A (sn 1, unhandled) and B (sn
2, already handled) in one organization errors with the already-handled
ids naming exactly 2, and A's is_handled is still false in the returned
state. -/
def dbC1 : DB :=
  { alarms :=
      [{ sn := 1, organization := "acme", imei := none, warn_type := "geofence",
         time := 10, check_the_time := none, check_time := none, is_handled := false,
         handled_by := none, handled_at := none, handle_reason := none },
       { sn := 2, organization := "acme", imei := none, warn_type := "geofence",
         time := 20, check_the_time := none, check_time := none, is_handled := true,
         handled_by := some "earlier", handled_at := some 5, handle_reason := none }]
    tags := []
    tracking_objects := []
    organizations := []
    routes := [] }

theorem trakr_C1_witness :
    handle_alarms dbC1 [1, 2] none "op" 50 =
      (dbC1, .error (.alreadyHandled [2])) ∧
    ((handle_alarms dbC1 [1, 2] none "op" 50).1.alarms.filter
        (fun a => a.sn = 1)).all (fun a => a.is_handled = false) = true := by
  have h := ((trakr_C1 dbC1 [1, 2] none "op" 50 (by decide)).2.1
    (by decide) (by decide))
  exact ⟨h, by rw [h]; decide⟩

theorem countP_key_map_update {α : Type} (key : α → Nat) (g : α → α)
    (hg : ∀ a, key (g a) = key a) (l : List α) (j : Nat) :
    (l.map g).countP (fun a => key a = j) = l.countP (fun a => key a = j) := by
  rw [List.countP_map]
  refine List.countP_congr (fun a _ => ?_)
  simp [Function.comp, hg]

theorem applyHandleLoop_fst (hb : String) (now : Int) (reason : Option String) :
    ∀ (ids : List Nat) (alarms : List AlarmRow),
      (applyHandleLoop alarms ids hb now reason).1 =
        alarms.map (fun a => if a.sn ∈ ids then setHandled hb now reason a else a) := by
  intro ids
  induction ids with
  | nil => intro alarms; simp [applyHandleLoop]
  | cons id rest ih =>
    intro alarms
    simp only [applyHandleLoop]
    rw [apply_ite Prod.fst, ite_self]
    rw [ih (alarms.map (fun a => if a.sn = id then setHandled hb now reason a else a))]
    rw [List.map_map]
    refine List.map_congr_left (fun a _ => ?_)
    by_cases h1 : a.sn = id
    · simp only [Function.comp_apply, if_pos h1]
      have h2 : setHandled hb now reason (setHandled hb now reason a) =
          setHandled hb now reason a := rfl
      have h3 : (setHandled hb now reason a).sn = a.sn := rfl
      rw [h3, h2, ite_self, if_pos (by simp [List.mem_cons, h1])]
    · simp only [Function.comp_apply, if_neg h1]
      simp [List.mem_cons, h1]

theorem applyHandleLoop_failed (hb : String) (now : Int) (reason : Option String) :
    ∀ (ids : List Nat) (alarms : List AlarmRow),
      (applyHandleLoop alarms ids hb now reason).2.2 =
        ids.filter (fun i => alarms.countP (fun a => a.sn = i) = 0) := by
  intro ids
  induction ids with
  | nil => intro alarms; simp [applyHandleLoop]
  | cons id rest ih =>
    intro alarms
    have hg : ∀ a : AlarmRow,
        ((if a.sn = id then setHandled hb now reason a else a)).sn = a.sn := by
      intro a
      by_cases h : a.sn = id <;> simp [h, setHandled]
    have hrest : (applyHandleLoop
          (alarms.map (fun a => if a.sn = id then setHandled hb now reason a else a))
          rest hb now reason).2.2 =
        rest.filter (fun i => alarms.countP (fun a => a.sn = i) = 0) := by
      rw [ih]
      refine List.filter_congr (fun i _ => ?_)
      exact decide_eq_decide.mpr
        (by rw [countP_key_map_update AlarmRow.sn _ hg alarms i])
    simp only [applyHandleLoop]
    by_cases hc : 0 < alarms.countP (fun a => a.sn = id)
    · rw [if_pos hc]
      show (applyHandleLoop _ rest hb now reason).2.2 = _
      rw [hrest, List.filter_cons, if_neg (by simp only [decide_eq_true_eq]; omega)]
    · rw [if_neg hc]
      show id :: (applyHandleLoop _ rest hb now reason).2.2 = _
      rw [hrest, List.filter_cons, if_pos (by simp only [decide_eq_true_eq]; omega)]

theorem applyHandleLoop_count (hb : String) (now : Int) (reason : Option String) :
    ∀ (ids : List Nat) (alarms : List AlarmRow),
      (applyHandleLoop alarms ids hb now reason).2.1 +
        (applyHandleLoop alarms ids hb now reason).2.2.length = ids.length := by
  intro ids
  induction ids with
  | nil => intro alarms; simp [applyHandleLoop]
  | cons id rest ih =>
    intro alarms
    have h := ih (alarms.map (fun a => if a.sn = id then setHandled hb now reason a else a))
    simp only [applyHandleLoop]
    by_cases hc : 0 < alarms.countP (fun a => a.sn = id)
    · rw [if_pos hc]
      show (applyHandleLoop _ rest hb now reason).2.1 + 1 +
        (applyHandleLoop _ rest hb now reason).2.2.length = rest.length + 1
      omega
    · rw [if_neg hc]
      show (applyHandleLoop _ rest hb now reason).2.1 +
        (id :: (applyHandleLoop _ rest hb now reason).2.2).length = rest.length + 1
      simp only [List.length_cons]
      omega

theorem applyTransferLoop_fst (org : String) :
    ∀ (ids : List Nat) (tags : List TagRow),
      (applyTransferLoop tags ids org).1 =
        tags.map (fun t => if t.sn ∈ ids then { t with organization := org } else t) := by
  intro ids
  induction ids with
  | nil => intro tags; simp [applyTransferLoop]
  | cons id rest ih =>
    intro tags
    simp only [applyTransferLoop]
    rw [apply_ite Prod.fst, ite_self]
    rw [ih (tags.map (fun t => if t.sn = id then { t with organization := org } else t))]
    rw [List.map_map]
    refine List.map_congr_left (fun t _ => ?_)
    by_cases h1 : t.sn = id
    · simp only [Function.comp_apply, if_pos h1]
      have h3 : ({ t with organization := org } : TagRow).sn = t.sn := rfl
      rw [h3, ite_self, if_pos (by simp [List.mem_cons, h1])]
    · simp only [Function.comp_apply, if_neg h1]
      simp [List.mem_cons, h1]

theorem applyTransferLoop_failed (org : String) :
    ∀ (ids : List Nat) (tags : List TagRow),
      (applyTransferLoop tags ids org).2.2 =
        ids.filter (fun i => tags.countP (fun t => t.sn = i) = 0) := by
  intro ids
  induction ids with
  | nil => intro tags; simp [applyTransferLoop]
  | cons id rest ih =>
    intro tags
    have hg : ∀ t : TagRow,
        ((if t.sn = id then { t with organization := org } else t)).sn = t.sn := by
      intro t
      by_cases h : t.sn = id <;> simp [h]
    have hrest : (applyTransferLoop
          (tags.map (fun t => if t.sn = id then { t with organization := org } else t))
          rest org).2.2 =
        rest.filter (fun i => tags.countP (fun t => t.sn = i) = 0) := by
      rw [ih]
      refine List.filter_congr (fun i _ => ?_)
      exact decide_eq_decide.mpr
        (by rw [countP_key_map_update TagRow.sn _ hg tags i])
    simp only [applyTransferLoop]
    by_cases hc : 0 < tags.countP (fun t => t.sn = id)
    · rw [if_pos hc]
      show (applyTransferLoop _ rest org).2.2 = _
      rw [hrest, List.filter_cons, if_neg (by simp only [decide_eq_true_eq]; omega)]
    · rw [if_neg hc]
      show id :: (applyTransferLoop _ rest org).2.2 = _
      rw [hrest, List.filter_cons, if_pos (by simp only [decide_eq_true_eq]; omega)]

theorem applyTransferLoop_count (org : String) :
    ∀ (ids : List Nat) (tags : List TagRow),
      (applyTransferLoop tags ids org).2.1 +
        (applyTransferLoop tags ids org).2.2.length = ids.length := by
  intro ids
  induction ids with
  | nil => intro tags; simp [applyTransferLoop]
  | cons id rest ih =>
    intro tags
    have h := ih (tags.map (fun t => if t.sn = id then { t with organization := org } else t))
    simp only [applyTransferLoop]
    by_cases hc : 0 < tags.countP (fun t => t.sn = id)
    · rw [if_pos hc]
      show (applyTransferLoop _ rest org).2.1 + 1 +
        (applyTransferLoop _ rest org).2.2.length = rest.length + 1
      omega
    · rw [if_neg hc]
      show (applyTransferLoop _ rest org).2.1 +
        (id :: (applyTransferLoop _ rest org).2.2).length = rest.length + 1
      simp only [List.length_cons]
      omega

/-- C3: in the apply phase of both bulk mutations each target gets its
own UPDATE: the failed ids are exactly the requested ids whose update
matched zero rows, every id with a matching row is updated in the final
table regardless of failures on other ids (no roll back of successes),
applied plus failed counts partition the request, and when the earlier
phases pass the operation commits the post-loop state once and returns
the dictionary reporting handled/transferred count, failed count, the
failed id list and the timestamp. -/
theorem trakr_C3 : ∀ (db : DB) (ids : List Nat) (reason : Option String)
    (hb : String) (now : Int) (oid : Nat) (g : OrganizationRow),
    (∀ alarms : List AlarmRow,
      (applyHandleLoop alarms ids hb now reason).2.2 =
          ids.filter (fun i => alarms.countP (fun a => a.sn = i) = 0) ∧
      (applyHandleLoop alarms ids hb now reason).1 =
          alarms.map (fun a => if a.sn ∈ ids then setHandled hb now reason a else a) ∧
      (applyHandleLoop alarms ids hb now reason).2.1 +
          (applyHandleLoop alarms ids hb now reason).2.2.length = ids.length) ∧
    (∀ (tags : List TagRow) (org : String),
      (applyTransferLoop tags ids org).2.2 =
          ids.filter (fun i => tags.countP (fun t => t.sn = i) = 0) ∧
      (applyTransferLoop tags ids org).1 =
          tags.map (fun t => if t.sn ∈ ids then { t with organization := org } else t) ∧
      (applyTransferLoop tags ids org).2.1 +
          (applyTransferLoop tags ids org).2.2.length = ids.length) ∧
    ((alarmsFetch db ids).length = ids.length →
     ¬ ((alarmsFetch db ids).map AlarmRow.organization).dedup.length > 1 →
     ((alarmsFetch db ids).filter (fun a => a.is_handled)).map AlarmRow.sn = [] →
      handle_alarms db ids reason hb now =
        ({ db with alarms := (applyHandleLoop db.alarms ids hb now reason).1 },
          .ok { message := "Alarm handling completed"
                handled_count := (applyHandleLoop db.alarms ids hb now reason).2.1
                failed_count := (applyHandleLoop db.alarms ids hb now reason).2.2.length
                failed_alarm_ids := (applyHandleLoop db.alarms ids hb now reason).2.2
                handle_time := now })) ∧
    ((db.organizations.filter (fun o => o.id = oid)).head? = some g →
     (tagsFetch db ids).length = ids.length →
      transfer_tags db ids oid now =
        ({ db with tags := (applyTransferLoop db.tags ids g.organization_name).1 },
          .ok { message := "Tag transfer completed"
                transferred_count := (applyTransferLoop db.tags ids g.organization_name).2.1
                failed_count := (applyTransferLoop db.tags ids g.organization_name).2.2.length
                failed_tag_ids := (applyTransferLoop db.tags ids g.organization_name).2.2
                transfer_time := now })) := by
  intro db ids reason hb now oid g
  refine ⟨fun alarms => ⟨applyHandleLoop_failed hb now reason ids alarms,
      applyHandleLoop_fst hb now reason ids alarms,
      applyHandleLoop_count hb now reason ids alarms⟩,
    fun tags org => ⟨applyTransferLoop_failed org ids tags,
      applyTransferLoop_fst org ids tags,
      applyTransferLoop_count org ids tags⟩,
    fun hex horg hhand => ?_, fun hg hex => ?_⟩
  · have hexne : ¬ (alarmsFetch db ids).length ≠ ids.length := by simpa using hex
    have hhne : ¬ ((alarmsFetch db ids).filter
        (fun a => a.is_handled)).map AlarmRow.sn ≠ [] := by simpa using hhand
    simp only [handle_alarms, if_neg hexne, if_neg horg, if_neg hhne]
  · have hexne : ¬ (tagsFetch db ids).length ≠ ids.length := by simpa using hex
    simp only [transfer_tags, hg, if_neg hexne]

/-- C3 witness database: alarms 1 and 2 unhandled, tag 9, organization 5. -/
def dbC3 : DB :=
  { alarms :=
      [{ sn := 1, organization := "acme", imei := none, warn_type := "geofence",
         time := 10, check_the_time := none, check_time := none, is_handled := false,
         handled_by := none, handled_at := none, handle_reason := none },
       { sn := 2, organization := "acme", imei := none, warn_type := "geofence",
         time := 20, check_the_time := none, check_time := none, is_handled := false,
         handled_by := none, handled_at := none, handle_reason := none }]
    tags :=
      [{ sn := 9, organization := "acme", imei := some "111", signal := none,
         power := none, charge_status := none, tracking_update_time := none,
         data_update_time := none, bluetooth_mark := none }]
    tracking_objects := []
    organizations := [{ id := 5, organization_name := "beta", title := none }]
    routes := [] }

/-- C3 witness: on the concrete database the loop over ids 1 and 3
(alarm 3 absent) reports 3 as the only failed id while alarm 1 is still
updated, and a fully passing bulk handle over ids 1 and 2 commits the
loop state and reports its counts. -/
theorem trakr_C3_witness :
    (applyHandleLoop dbC3.alarms [1, 3] "op" 99 none).2.2 = [3] ∧
    (applyHandleLoop dbC3.alarms [1, 3] "op" 99 none).1 =
      dbC3.alarms.map (fun a => if a.sn ∈ [1, 3] then setHandled "op" 99 none a else a) ∧
    handle_alarms dbC3 [1, 2] none "op" 99 =
      ({ dbC3 with alarms := (applyHandleLoop dbC3.alarms [1, 2] "op" 99 none).1 },
        .ok { message := "Alarm handling completed"
              handled_count := (applyHandleLoop dbC3.alarms [1, 2] "op" 99 none).2.1
              failed_count := (applyHandleLoop dbC3.alarms [1, 2] "op" 99 none).2.2.length
              failed_alarm_ids := (applyHandleLoop dbC3.alarms [1, 2] "op" 99 none).2.2
              handle_time := 99 }) :=
  ⟨((trakr_C3 dbC3 [1, 3] none "op" 99 5
      { id := 5, organization_name := "beta", title := none }).1 dbC3.alarms).1.trans
        (by decide),
   ((trakr_C3 dbC3 [1, 3] none "op" 99 5
      { id := 5, organization_name := "beta", title := none }).1 dbC3.alarms).2.1,
   (trakr_C3 dbC3 [1, 2] none "op" 99 5
      { id := 5, organization_name := "beta", title := none }).2.2.1
        (by decide) (by decide) (by decide)⟩

/-- C6: for the alarm and tag list operations the reported total is
computed by the unpaginated count query, hence is the same for every page
value under the same filter; the row window is the slice of the ordered
row set starting at offset (page-1)*page_size and at most page_size long;
and a page whose offset is at or beyond the end of the data yields an
empty row list together with that same total rather than an error. -/
theorem trakr_C6 : ∀ (db : DB) (f : AlarmFilter) (tf : TagFilter) (p p' : Nat),
    ((get_alarms_with_filters db { f with page := p }).total_records =
      (get_alarms_with_filters db { f with page := p' }).total_records) ∧
    ((get_tags_with_filters db { tf with page := p }).total_count =
      (get_tags_with_filters db { tf with page := p' }).total_count) ∧
    ((get_alarms_with_filters db f).alarms =
      (((sortLe alarmOrderLe (alarmSelectedRows db f)).drop
          ((f.page - 1) * f.page_size)).take f.page_size).map alarmDisplay) ∧
    ((get_alarms_with_filters db f).alarms.length ≤ f.page_size) ∧
    ((alarmSelectedRows db f).length ≤ (f.page - 1) * f.page_size →
      (get_alarms_with_filters db f).alarms = [] ∧
      (get_alarms_with_filters db f).total_records =
        (db.alarms.filter (alarmCountPred f)).length) ∧
    (((tagJoinRows db).filter (fun q => tagRowPred tf q.1 q.2)).length ≤
        (tf.page - 1) * tf.page_size →
      (get_tags_with_filters db tf).tags = [] ∧
      (get_tags_with_filters db tf).total_count =
        ((tagJoinRows db).filter (fun q => tagCountPred tf q.1 q.2)).length) := by
  intro db f tf p p'
  refine ⟨rfl, rfl, rfl, ?_, fun h => ⟨?_, rfl⟩, fun h => ⟨?_, rfl⟩⟩
  · show ((((sortLe alarmOrderLe (alarmSelectedRows db f)).drop
        ((f.page - 1) * f.page_size)).take f.page_size).map alarmDisplay).length ≤ f.page_size
    rw [List.length_map, List.length_take]
    omega
  · show ((((sortLe alarmOrderLe (alarmSelectedRows db f)).drop
        ((f.page - 1) * f.page_size)).take f.page_size).map alarmDisplay) = []
    rw [List.drop_eq_nil_of_le (by rw [length_sortLe]; exact h)]
    simp
  · show ((((sortLe tagOrderLe ((tagJoinRows db).filter
          (fun q => tagRowPred tf q.1 q.2))).drop
        ((tf.page - 1) * tf.page_size)).take tf.page_size).map tagDisplay) = []
    rw [List.drop_eq_nil_of_le (by rw [length_sortLe]; exact h)]
    simp

/-- C6 witness database: three alarms in one organization, one tag. -/
def dbC6 : DB :=
  { alarms :=
      [{ sn := 1, organization := "acme", imei := none, warn_type := "geofence",
         time := 10, check_the_time := none, check_time := none, is_handled := false,
         handled_by := none, handled_at := none, handle_reason := none },
       { sn := 2, organization := "acme", imei := none, warn_type := "geofence",
         time := 20, check_the_time := none, check_time := none, is_handled := false,
         handled_by := none, handled_at := none, handle_reason := none },
       { sn := 3, organization := "acme", imei := none, warn_type := "low_battery",
         time := 30, check_the_time := none, check_time := none, is_handled := false,
         handled_by := none, handled_at := none, handle_reason := none }]
    tags :=
      [{ sn := 9, organization := "acme", imei := some "111", signal := none,
         power := none, charge_status := none, tracking_update_time := none,
         data_update_time := none, bluetooth_mark := none }]
    tracking_objects := []
    organizations := [{ id := 5, organization_name := "acme", title := none }]
    routes := [] }

/-- C6 witness: the total is the same on pages 1 and 7 of the same
filter, and page 7 with page size 2 (offset 12, past the 3 rows) returns
an empty row list with the unchanged total. -/
theorem trakr_C6_witness :
    ((get_alarms_with_filters dbC6
        { organization := "acme", page := 1, page_size := 2 }).total_records =
      (get_alarms_with_filters dbC6
        { organization := "acme", page := 7, page_size := 2 }).total_records) ∧
    ((get_alarms_with_filters dbC6
        { organization := "acme", page := 7, page_size := 2 }).alarms = [] ∧
      (get_alarms_with_filters dbC6
          { organization := "acme", page := 7, page_size := 2 }).total_records =
        (dbC6.alarms.filter (alarmCountPred
          { organization := "acme", page := 7, page_size := 2 })).length) :=
  ⟨(trakr_C6 dbC6 { organization := "acme", page := 0, page_size := 2 }
      { page := 1, page_size := 10 } 1 7).1,
   (trakr_C6 dbC6 { organization := "acme", page := 7, page_size := 2 }
      { page := 1, page_size := 10 } 1 7).2.2.2.2.1 (by decide)⟩

theorem lj_len {β : Type} (ms : List β) (h : ms.length ≤ 1) :
    (if ms.isEmpty then ([none] : List (Option β)) else ms.map some).length = 1 := by
  cases ms with
  | nil => rfl
  | cons b bs =>
    cases bs with
    | nil => rfl
    | cons c cs => simp at h

theorem leftJoinTags_length (tags : List TagRow) (k : Option String)
    (h : (tags.filter (fun t => sqlEqS k t.imei)).length ≤ 1) :
    (leftJoinTags tags k).length = 1 := by
  unfold leftJoinTags
  exact lj_len _ h

theorem leftJoinTrackingObjects_length (tos : List TrackingObjectRow) (k : Option String)
    (h : (tos.filter (fun o => sqlEqS k o.mac)).length ≤ 1) :
    (leftJoinTrackingObjects tos k).length = 1 := by
  unfold leftJoinTrackingObjects
  exact lj_len _ h

theorem leftJoinTrackingObjects_none (tos : List TrackingObjectRow) :
    leftJoinTrackingObjects tos none = [none] := by
  unfold leftJoinTrackingObjects
  have h : tos.filter (fun o => sqlEqS none o.mac) = [] := by
    rw [List.filter_eq_nil_iff]
    intro o _
    cases homac : o.mac <;> simp [sqlEqS]
  rw [h]
  rfl

theorem mem_leftJoinTags_some (tags : List TagRow) (k : Option String) (t : TagRow)
    (h : some t ∈ leftJoinTags tags k) : t ∈ tags := by
  unfold leftJoinTags at h
  by_cases he : (tags.filter (fun u => sqlEqS k u.imei)).isEmpty
  · rw [if_pos he] at h
    simp at h
  · rw [if_neg he] at h
    rcases List.mem_map.mp h with ⟨u, hu, hsome⟩
    cases Option.some.injEq .. ▸ hsome
    exact List.mem_of_mem_filter (Option.some_injective _ hsome ▸ hu)

theorem alarmJoinRows_length_one (db : DB) (a : AlarmRow)
    (h2 : (db.tags.filter (fun t => sqlEqS a.imei t.imei)).length ≤ 1)
    (h3 : ∀ t ∈ db.tags,
      (db.tracking_objects.filter (fun o => sqlEqS t.imei o.mac)).length ≤ 1) :
    (alarmJoinRows db a).length = 1 := by
  unfold alarmJoinRows
  have hT := leftJoinTags_length db.tags a.imei h2
  rcases List.length_eq_one.mp hT with ⟨t, ht⟩
  rw [ht, List.flatMap_cons, List.flatMap_nil, List.append_nil, List.length_map]
  cases t with
  | none =>
    rw [show (none : Option TagRow).bind TagRow.imei = none from rfl,
      leftJoinTrackingObjects_none]
    rfl
  | some t0 =>
    have ht0 : t0 ∈ db.tags := mem_leftJoinTags_some db.tags a.imei t0 (ht ▸ List.mem_singleton_self _)
    rw [show (some t0).bind TagRow.imei = t0.imei from rfl]
    exact leftJoinTrackingObjects_length db.tracking_objects t0.imei (h3 t0 ht0)

theorem length_flatMap_const_one {α β : Type} (l : List α) (g : α → List β)
    (h : ∀ a ∈ l, (g a).length = 1) : (l.flatMap g).length = l.length := by
  induction l with
  | nil => rfl
  | cons b bs ih =>
    rw [List.flatMap_cons, List.length_append, h b (List.mem_cons_self b bs),
      ih (fun a ha => h a (List.mem_cons_of_mem b ha)), List.length_cons]
    omega

theorem alarmSelectedRows_length (db : DB) (f : AlarmFilter)
    (h2 : ∀ a ∈ db.alarms, (db.tags.filter (fun t => sqlEqS a.imei t.imei)).length ≤ 1)
    (h3 : ∀ t ∈ db.tags,
      (db.tracking_objects.filter (fun o => sqlEqS t.imei o.mac)).length ≤ 1) :
    (alarmSelectedRows db f).length = (db.alarms.filter (alarmRowPred f)).length := by
  unfold alarmSelectedRows
  refine length_flatMap_const_one _ _ (fun a ha => ?_)
  rw [List.length_map]
  exact alarmJoinRows_length_one db a (h2 a (List.mem_of_mem_filter ha)) h3

theorem length_take_drop_sort_le {α : Type} (le : α → α → Bool) (l : List α) (n m : Nat) :
    (((sortLe le l).drop n).take m).length ≤ l.length := by
  rw [List.length_take, List.length_drop, length_sortLe]
  omega

theorem length_filter_flatMap {α β : Type} (l : List α) (g : α → List β) (p : β → Bool) :
    ((l.flatMap g).filter p).length =
      (l.map (fun a => ((g a).filter p).length)).sum := by
  rw [List.filter_flatMap, List.length_flatMap]
  congr 1

theorem sum_map_const {α : Type} (l : List α) (c : Nat) :
    (l.map (fun _ => c)).sum = l.length * c := by
  induction l with
  | nil => simp
  | cons b bs ih =>
    rw [List.map_cons, List.sum_cons, ih, List.length_cons]
    ring

theorem flatMap_map_filter_len {β γ δ : Type} (lo : List β) (lg : List γ)
    (mk : β → γ → δ) (p : δ → Bool) (q : γ → Bool)
    (hp : ∀ o g, p (mk o g) = q g) (hlo : lo.length = 1) :
    ((lo.flatMap (fun o => lg.map (mk o))).filter p).length = (lg.filter q).length := by
  rcases List.length_eq_one.mp hlo with ⟨o0, ho⟩
  rw [ho, List.flatMap_cons, List.flatMap_nil, List.append_nil, List.filter_map,
    List.length_map]
  congr 1
  exact List.filter_congr (fun g _ => by simpa [Function.comp] using hp o0 g)

theorem routeRows_len (db : DB) (f : RouteFilter)
    (h3 : ∀ u ∈ db.tags,
      (db.tracking_objects.filter (fun o => sqlEqS u.imei o.mac)).length ≤ 1) :
    (routeSelectedRows db f).length = (routeCountRows db f).length := by
  unfold routeSelectedRows routeCountRows
  rw [length_filter_flatMap, length_filter_flatMap]
  congr 1
  refine List.map_congr_left (fun r _ => ?_)
  rw [length_filter_flatMap, length_filter_flatMap]
  congr 1
  refine List.map_congr_left (fun t ht => ?_)
  have hlo : (leftJoinTrackingObjects db.tracking_objects (t.bind TagRow.imei)).length = 1 := by
    cases t with
    | none =>
      rw [show (none : Option TagRow).bind TagRow.imei = none from rfl,
        leftJoinTrackingObjects_none]
      rfl
    | some t0 =>
      have ht0 : t0 ∈ db.tags := mem_leftJoinTags_some db.tags r.terminal_id t0 ht
      exact leftJoinTrackingObjects_length _ _ (h3 t0 ht0)
  rw [flatMap_map_filter_len _ _ _ _
    (fun g => sqlEqS (g.map OrganizationRow.organization_name) (some f.organization) &&
      routeTimePred f r)
    (fun o g => rfl) hlo]
  rw [List.filter_map, List.length_map]
  exact (List.filter_congr (fun g _ => rfl)).symm ▸ rfl

/-- C5 counterexample database: one alarm whose imei matches two tag
rows with the same imei, so the row query's left join fans out while the
count query (which omits the joins) counts the alarm once. -/
def dbC5cex : DB :=
  { alarms :=
      [{ sn := 1, organization := "acme", imei := some "X", warn_type := "geofence",
         time := 10, check_the_time := none, check_time := none, is_handled := false,
         handled_by := none, handled_at := none, handle_reason := none }]
    tags :=
      [{ sn := 7, organization := "acme", imei := some "X", signal := none,
         power := none, charge_status := none, tracking_update_time := none,
         data_update_time := none, bluetooth_mark := none },
       { sn := 8, organization := "acme", imei := some "X", signal := none,
         power := none, charge_status := none, tracking_update_time := none,
         data_update_time := none, bluetooth_mark := none }]
    tracking_objects := []
    organizations := []
    routes := [] }

/-- C5 counterexample: with a duplicated tag imei, the alarm list
operation returns more rows than its reported total, refuting the claim
that the two queries always select the same underlying row set and that
the number of rows returned never exceeds total_count. -/
theorem trakr_C5_cex :
    (get_alarms_with_filters dbC5cex
        { organization := "acme", page := 1, page_size := 10 }).total_records <
      (get_alarms_with_filters dbC5cex
        { organization := "acme", page := 1, page_size := 10 }).alarms.length := by
  decide

/-- C5 amended: the WHERE predicates of the row and count queries are
identical for every filter (alarms and tags), and the row set selected
equals the one counted — hence rows returned never exceed total_count —
unconditionally for tags (whose two queries share the same joins), and
for alarms and routes under the condition that the natural join keys do
not fan out (at most one Tags row per alarm imei, at most one
Tracking_Objects row per tag imei), since their count queries omit the
LEFT JOINs of the row query. -/
theorem trakr_C5 :
    (∀ (f : AlarmFilter) (a : AlarmRow), alarmRowPred f a = alarmCountPred f a) ∧
    (∀ (tf : TagFilter) (t : TagRow) (o : OrganizationRow),
      tagRowPred tf t o = tagCountPred tf t o) ∧
    (∀ (db : DB) (tf : TagFilter),
      (get_tags_with_filters db tf).tags.length ≤ (get_tags_with_filters db tf).total_count) ∧
    (∀ (db : DB) (f : AlarmFilter),
      (∀ a ∈ db.alarms, (db.tags.filter (fun t => sqlEqS a.imei t.imei)).length ≤ 1) →
      (∀ t ∈ db.tags,
        (db.tracking_objects.filter (fun o => sqlEqS t.imei o.mac)).length ≤ 1) →
      (get_alarms_with_filters db f).alarms.length ≤
        (get_alarms_with_filters db f).total_records) ∧
    (∀ (db : DB) (rf : RouteFilter),
      (∀ t ∈ db.tags,
        (db.tracking_objects.filter (fun o => sqlEqS t.imei o.mac)).length ≤ 1) →
      (get_routes_with_filters db rf).routes.length ≤
        (get_routes_with_filters db rf).total_records) := by
  refine ⟨fun f a => rfl, fun tf t o => rfl, fun db tf => ?_, fun db f h2 h3 => ?_,
    fun db rf h3 => ?_⟩
  · show ((((sortLe tagOrderLe ((tagJoinRows db).filter
        (fun p => tagRowPred tf p.1 p.2))).drop
          ((tf.page - 1) * tf.page_size)).take tf.page_size).map tagDisplay).length ≤ _
    rw [List.length_map]
    exact length_take_drop_sort_le _ _ _ _
  · show ((((sortLe alarmOrderLe (alarmSelectedRows db f)).drop
        ((f.page - 1) * f.page_size)).take f.page_size).map alarmDisplay).length ≤ _
    rw [List.length_map]
    refine le_trans (length_take_drop_sort_le _ _ _ _) ?_
    exact le_of_eq (alarmSelectedRows_length db f h2 h3)
  · show (((((sortLe routeOrderLe (routeSelectedRows db rf)).enum).drop
        ((rf.page - 1) * rf.page_size)).take rf.page_size).map
          (fun p => routeDisplay (p.1 + 1) p.2)).length ≤ (routeCountRows db rf).length
    rw [List.length_map, List.length_take, List.length_drop, List.enum_length,
      length_sortLe, routeRows_len db rf h3]
    omega

/-- C5 witness database: clean one-to-one join keys. -/
def dbC5 : DB :=
  { alarms :=
      [{ sn := 1, organization := "acme", imei := some "X", warn_type := "geofence",
         time := 10, check_the_time := none, check_time := none, is_handled := false,
         handled_by := none, handled_at := none, handle_reason := none }]
    tags :=
      [{ sn := 7, organization := "acme", imei := some "X", signal := none,
         power := none, charge_status := none, tracking_update_time := none,
         data_update_time := none, bluetooth_mark := none }]
    tracking_objects :=
      [{ sn := 1, organization := "acme", name := some "Forklift-1", role := none,
         mac := some "X" }]
    organizations := [{ id := 5, organization_name := "acme", title := none }]
    routes := [{ sn := 1, terminal_id := some "X", tracking_time := 10, gps_x := 1,
                 gps_y := 2 }] }

/-- C5 witness: the amended bound applied on a database with one-to-one
join keys, for the alarm, tag and route list operations. -/
theorem trakr_C5_witness :
    ((get_alarms_with_filters dbC5 { organization := "acme" }).alarms.length ≤
      (get_alarms_with_filters dbC5 { organization := "acme" }).total_records) ∧
    ((get_tags_with_filters dbC5 { organization := some "acme" }).tags.length ≤
      (get_tags_with_filters dbC5 { organization := some "acme" }).total_count) ∧
    ((get_routes_with_filters dbC5 { organization := "acme" }).routes.length ≤
      (get_routes_with_filters dbC5 { organization := "acme" }).total_records) :=
  ⟨trakr_C5.2.2.2.1 dbC5 { organization := "acme" } (by decide) (by decide),
   trakr_C5.2.2.1 dbC5 { organization := some "acme" },
   trakr_C5.2.2.2.2 dbC5 { organization := "acme" } (by decide)⟩

theorem leftJoinTags_nil (tags : List TagRow) (k : Option String)
    (h : tags.filter (fun t => sqlEqS k t.imei) = []) :
    leftJoinTags tags k = [none] := by
  unfold leftJoinTags
  rw [h]
  rfl

theorem leftJoinTags_single (tags : List TagRow) (k : Option String) (t0 : TagRow)
    (h : tags.filter (fun t => sqlEqS k t.imei) = [t0]) :
    leftJoinTags tags k = [some t0] := by
  unfold leftJoinTags
  rw [h]
  rfl

theorem leftJoinTrackingObjects_single (tos : List TrackingObjectRow) (k : Option String)
    (o0 : TrackingObjectRow) (h : tos.filter (fun o => sqlEqS k o.mac) = [o0]) :
    leftJoinTrackingObjects tos k = [some o0] := by
  unfold leftJoinTrackingObjects
  rw [h]
  rfl

theorem alarmJoinRows_nomatch (db : DB) (a : AlarmRow)
    (h : db.tags.filter (fun t => sqlEqS a.imei t.imei) = []) :
    alarmJoinRows db a = [(none, none)] := by
  unfold alarmJoinRows
  rw [leftJoinTags_nil _ _ h, List.flatMap_cons, List.flatMap_nil, List.append_nil,
    show (none : Option TagRow).bind TagRow.imei = none from rfl,
    leftJoinTrackingObjects_none]
  rfl

theorem alarmJoinRows_match (db : DB) (a : AlarmRow) (t0 : TagRow) (o0 : TrackingObjectRow)
    (h1 : db.tags.filter (fun t => sqlEqS a.imei t.imei) = [t0])
    (h2 : db.tracking_objects.filter (fun o => sqlEqS t0.imei o.mac) = [o0]) :
    alarmJoinRows db a = [(some t0, some o0)] := by
  unfold alarmJoinRows
  rw [leftJoinTags_single _ _ _ h1, List.flatMap_cons, List.flatMap_nil, List.append_nil,
    show (some t0).bind TagRow.imei = t0.imei from rfl,
    leftJoinTrackingObjects_single _ _ _ h2]
  rfl

theorem get_alarm_by_id_of_join (db : DB) (id : Nat) (a : AlarmRow)
    (hp : db.alarms.Pairwise (fun x y => x.sn ≠ y.sn)) (ha : a ∈ db.alarms)
    (hsn : a.sn = id) (j : Option TagRow × Option TrackingObjectRow)
    (hj : alarmJoinRows db a = [j]) :
    get_alarm_by_id db id = some (alarmDisplay (a, j)) := by
  unfold get_alarm_by_id
  rw [pairwise_filter_key AlarmRow.sn id a db.alarms hp ha hsn,
    List.flatMap_cons, List.flatMap_nil, List.append_nil, hj]
  rfl

/-- C7 counterexample database: the alarm's imei joins a tag, the tag's
imei joins a tracking object, but that tracking object's name is the
empty string. -/
def dbC7cex : DB :=
  { alarms :=
      [{ sn := 1, organization := "acme", imei := some "222", warn_type := "geofence",
         time := 10, check_the_time := none, check_time := none, is_handled := false,
         handled_by := none, handled_at := none, handle_reason := none }]
    tags :=
      [{ sn := 7, organization := "acme", imei := some "222", signal := none,
         power := none, charge_status := none, tracking_update_time := none,
         data_update_time := none, bluetooth_mark := none }]
    tracking_objects :=
      [{ sn := 3, organization := "acme", name := some "", role := none,
         mac := some "222" }]
    organizations := []
    routes := [] }

/-- C7 counterexample: the natural-key join finds a match whose name is
the empty string, yet the operation displays "Unknown" instead of
returning the matched name — the coalescing is Python truthiness, not
match existence, refuting the claim that a matched name is returned. -/
theorem trakr_C7_cex :
    (dbC7cex.alarms.map AlarmRow.imei = [some "222"]) ∧
    ((dbC7cex.tags.filter (fun t => sqlEqS (some "222") t.imei)).map TagRow.imei =
      [some "222"]) ∧
    ((dbC7cex.tracking_objects.filter (fun o => sqlEqS (some "222") o.mac)).map
      TrackingObjectRow.name = [some ""]) ∧
    (get_alarm_by_id dbC7cex 1).map AlarmOut.tracking_object = some "Unknown" := by
  decide

/-- C7 amended: rows whose joins find no match are still returned with
the literal "Unknown" in the unresolved display fields — by get and
inside the list row set — and when the joins match a tracking object
whose name is non-NULL and non-empty, that name is returned; a matched
but NULL or empty name also displays "Unknown" (Python truthiness
fallback). -/
theorem trakr_C7 :
    (∀ (db : DB) (id : Nat) (a : AlarmRow),
      db.alarms.Pairwise (fun x y => x.sn ≠ y.sn) → a ∈ db.alarms → a.sn = id →
      db.tags.filter (fun t => sqlEqS a.imei t.imei) = [] →
      get_alarm_by_id db id = some (alarmDisplay (a, none, none)) ∧
      (alarmDisplay (a, none, none)).imei = "Unknown" ∧
      (alarmDisplay (a, none, none)).tracking_object = "Unknown") ∧
    (∀ (db : DB) (id : Nat) (a : AlarmRow) (t0 : TagRow) (o0 : TrackingObjectRow)
        (s : String),
      db.alarms.Pairwise (fun x y => x.sn ≠ y.sn) → a ∈ db.alarms → a.sn = id →
      db.tags.filter (fun t => sqlEqS a.imei t.imei) = [t0] →
      db.tracking_objects.filter (fun o => sqlEqS t0.imei o.mac) = [o0] →
      o0.name = some s → s ≠ "" →
      get_alarm_by_id db id = some (alarmDisplay (a, some t0, some o0)) ∧
      (alarmDisplay (a, some t0, some o0)).tracking_object = s) ∧
    (∀ (db : DB) (f : AlarmFilter) (a : AlarmRow),
      a ∈ db.alarms → alarmRowPred f a = true →
      db.tags.filter (fun t => sqlEqS a.imei t.imei) = [] →
      f.page = 1 → (alarmSelectedRows db f).length ≤ f.page_size →
      alarmDisplay (a, none, none) ∈ (get_alarms_with_filters db f).alarms ∧
      (alarmDisplay (a, none, none)).sn = a.sn ∧
      (alarmDisplay (a, none, none)).tracking_object = "Unknown") ∧
    (∀ (db : DB) (id : Nat) (r : RouteRow),
      db.routes.Pairwise (fun x y => x.sn ≠ y.sn) → r ∈ db.routes → r.sn = id →
      db.tags.filter (fun t => sqlEqS r.terminal_id t.imei) = [] →
      get_route_by_id db id =
        some { sn := 1, terminal_id := "Unknown", tracking_object := "Unknown",
               tracking_time := r.tracking_time, gps_x := r.gps_x, gps_y := r.gps_y }) := by
  refine ⟨fun db id a hp ha hsn hnil => ?_,
    fun db id a t0 o0 s hp ha hsn h1 h2 hname hs => ?_,
    fun db f a ha hpred hnil hpage hlen => ?_,
    fun db id r hp hr hsn hnil => ?_⟩
  · exact ⟨get_alarm_by_id_of_join db id a hp ha hsn (none, none)
      (alarmJoinRows_nomatch db a hnil), rfl, rfl⟩
  · refine ⟨get_alarm_by_id_of_join db id a hp ha hsn (some t0, some o0)
      (alarmJoinRows_match db a t0 o0 h1 h2), ?_⟩
    simp [alarmDisplay, pyOr, hname, hs]
  · have hsel : (a, (none : Option TagRow), (none : Option TrackingObjectRow)) ∈
        alarmSelectedRows db f := by
      unfold alarmSelectedRows
      refine List.mem_flatMap.mpr ⟨a, List.mem_filter.mpr ⟨ha, hpred⟩, ?_⟩
      rw [alarmJoinRows_nomatch db a hnil]
      simp
    refine ⟨?_, rfl, rfl⟩
    show _ ∈ (((sortLe alarmOrderLe (alarmSelectedRows db f)).drop
      ((f.page - 1) * f.page_size)).take f.page_size).map alarmDisplay
    rw [hpage, show (1 - 1) * f.page_size = 0 from by omega, List.drop_zero,
      List.take_of_length_le (by rw [length_sortLe]; exact hlen)]
    exact List.mem_map.mpr ⟨_, (mem_sortLe _ _ _).mpr hsel, rfl⟩
  · unfold get_route_by_id
    rw [pairwise_filter_key RouteRow.sn id r db.routes hp hr hsn,
      List.flatMap_cons, List.flatMap_nil, List.append_nil,
      leftJoinTags_nil _ _ hnil, List.flatMap_cons, List.flatMap_nil, List.append_nil,
      show (none : Option TagRow).bind TagRow.imei = none from rfl,
      leftJoinTrackingObjects_none]
    rfl

/-- C7 witness rows: an orphaned alarm (imei 111, no tag) and a resolved
alarm (imei 222). -/
def alarmC7a : AlarmRow :=
  { sn := 1, organization := "acme", imei := some "111", warn_type := "geofence",
    time := 10, check_the_time := none, check_time := none, is_handled := false,
    handled_by := none, handled_at := none, handle_reason := none }

/-- C7 witness row: the alarm resolved through tag 222 to Forklift-1. -/
def alarmC7b : AlarmRow :=
  { sn := 2, organization := "acme", imei := some "222", warn_type := "geofence",
    time := 20, check_the_time := none, check_time := none, is_handled := false,
    handled_by := none, handled_at := none, handle_reason := none }

/-- C7 witness database: organization acme with the two alarms above, a
tag for imei 222, tracking object Forklift-1, and a route whose terminal
joins no tag. -/
def dbC7 : DB :=
  { alarms := [alarmC7a, alarmC7b]
    tags :=
      [{ sn := 7, organization := "acme", imei := some "222", signal := none,
         power := none, charge_status := none, tracking_update_time := none,
         data_update_time := none, bluetooth_mark := none }]
    tracking_objects :=
      [{ sn := 3, organization := "acme", name := some "Forklift-1", role := none,
         mac := some "222" }]
    organizations := [{ id := 5, organization_name := "acme", title := none }]
    routes := [{ sn := 4, terminal_id := some "999", tracking_time := 30, gps_x := 1,
                 gps_y := 2 }] }

/-- C7 witness: on the concrete database the orphaned alarm is returned
by get with "Unknown" fields, the resolved alarm shows Forklift-1, and
the orphaned alarm appears in the first list page with tracking_object
"Unknown". -/
theorem trakr_C7_witness :
    (get_alarm_by_id dbC7 1 =
      some (alarmDisplay (alarmC7a, none, none)) ∧
     (alarmDisplay (alarmC7a, none, none)).imei = "Unknown" ∧
     (alarmDisplay (alarmC7a, none, none)).tracking_object = "Unknown") ∧
    ((alarmDisplay (alarmC7a, none, none)) ∈
      (get_alarms_with_filters dbC7 { organization := "acme" }).alarms ∧
     (alarmDisplay (alarmC7a, none, none)).sn = alarmC7a.sn ∧
     (alarmDisplay (alarmC7a, none, none)).tracking_object = "Unknown") ∧
    (get_alarm_by_id dbC7 2).map AlarmOut.tracking_object = some "Forklift-1" := by
  refine ⟨trakr_C7.1 dbC7 1 alarmC7a (by decide) (by decide) (by decide)
      (by decide),
    trakr_C7.2.2.1 dbC7 { organization := "acme" } alarmC7a (by decide)
      (by decide) (by decide) rfl (by decide), ?_⟩
  have h := (trakr_C7.2.1 dbC7 2 alarmC7b
    { sn := 7, organization := "acme", imei := some "222", signal := none,
      power := none, charge_status := none, tracking_update_time := none,
      data_update_time := none, bluetooth_mark := none }
    { sn := 3, organization := "acme", name := some "Forklift-1", role := none,
      mac := some "222" }
    "Forklift-1" (by decide) (by decide) (by decide) (by decide) (by decide) rfl
    (by decide))
  rw [h.1]
  simpa using h.2

theorem get_route_by_id_of_join (db : DB) (id : Nat) (r : RouteRow)
    (t1 : Option TagRow) (o1 : Option TrackingObjectRow)
    (hp : db.routes.Pairwise (fun x y => x.sn ≠ y.sn)) (hr : r ∈ db.routes)
    (hsn : r.sn = id)
    (hT : leftJoinTags db.tags r.terminal_id = [t1])
    (hO : leftJoinTrackingObjects db.tracking_objects (t1.bind TagRow.imei) = [o1]) :
    get_route_by_id db id = some
      { sn := 1
        terminal_id := pyOr (t1.bind TagRow.imei) "Unknown"
        tracking_object := pyOr (o1.bind TrackingObjectRow.name) "Unknown"
        tracking_time := r.tracking_time
        gps_x := r.gps_x
        gps_y := r.gps_y } := by
  unfold get_route_by_id
  rw [pairwise_filter_key RouteRow.sn id r db.routes hp hr hsn, List.flatMap_cons,
    List.flatMap_nil, List.append_nil, hT, List.flatMap_cons, List.flatMap_nil,
    List.append_nil, hO]
  rfl

/-- C8: under primary-key uniqueness and one-to-one natural join keys,
the single-item path and the listing path resolve the joins identically:
any alarm list row carrying the id returned by get_alarm_by_id equals
the item that get returns, field for field; and any route row of the
list row set stemming from the Route_List row with a given key displays
the same terminal_id and tracking_object as get_route_by_id for that
key. -/
theorem trakr_C8 :
    (∀ (db : DB) (f : AlarmFilter) (id : Nat) (out : AlarmOut),
      db.alarms.Pairwise (fun x y => x.sn ≠ y.sn) →
      (∀ a ∈ db.alarms, (db.tags.filter (fun t => sqlEqS a.imei t.imei)).length ≤ 1) →
      (∀ t ∈ db.tags,
        (db.tracking_objects.filter (fun o => sqlEqS t.imei o.mac)).length ≤ 1) →
      get_alarm_by_id db id = some out →
      ∀ row ∈ (get_alarms_with_filters db f).alarms, row.sn = id → row = out) ∧
    (∀ (db : DB) (f : RouteFilter) (id : Nat) (r : RouteRow) (out : RouteOut),
      db.routes.Pairwise (fun x y => x.sn ≠ y.sn) → r ∈ db.routes → r.sn = id →
      (db.tags.filter (fun t => sqlEqS r.terminal_id t.imei)).length ≤ 1 →
      (∀ t ∈ db.tags,
        (db.tracking_objects.filter (fun o => sqlEqS t.imei o.mac)).length ≤ 1) →
      get_route_by_id db id = some out →
      ∀ x ∈ routeSelectedRows db f, x.1.sn = id →
        pyOr (x.2.1.bind TagRow.imei) "Unknown" = out.terminal_id ∧
        pyOr (x.2.2.1.bind TrackingObjectRow.name) "Unknown" = out.tracking_object) := by
  constructor
  · intro db f id out hp h2 h3 hget row hrow hsn
    rcases List.mem_map.mp hrow with ⟨x, hx, hdx⟩
    have hxsel : x ∈ alarmSelectedRows db f :=
      (mem_sortLe _ _ _).mp (List.mem_of_mem_drop (List.mem_of_mem_take hx))
    rcases List.mem_flatMap.mp hxsel with ⟨a, hafil, hxmap⟩
    rcases List.mem_map.mp hxmap with ⟨p, hpj, hxeq⟩
    have ha : a ∈ db.alarms := List.mem_of_mem_filter hafil
    have hasn : a.sn = id := by
      have : row.sn = a.sn := by rw [← hdx, ← hxeq]; rfl
      omega
    rcases List.length_eq_one.mp
      (alarmJoinRows_length_one db a (h2 a ha) h3) with ⟨j, hj⟩
    have hout : out = alarmDisplay (a, j) := by
      have := (get_alarm_by_id_of_join db id a hp ha hasn j hj).symm.trans hget
      exact (Option.some.inj this).symm
    have hpja : p = j := by
      rw [hj] at hpj
      simpa using hpj
    rw [← hdx, ← hxeq, hpja, hout]
  · intro db f id r out hp hr hsn h2 h3 hget x hxmem hxsn
    rcases List.length_eq_one.mp (leftJoinTags_length db.tags r.terminal_id h2)
      with ⟨t1, hT⟩
    have hO : ∃ o1, leftJoinTrackingObjects db.tracking_objects
        (t1.bind TagRow.imei) = [o1] := by
      cases t1 with
      | none =>
        exact ⟨none, by
          rw [show (none : Option TagRow).bind TagRow.imei = none from rfl,
            leftJoinTrackingObjects_none]⟩
      | some t0 =>
        have ht0 : t0 ∈ db.tags :=
          mem_leftJoinTags_some db.tags r.terminal_id t0 (hT ▸ List.mem_singleton_self _)
        exact List.length_eq_one.mp
          (leftJoinTrackingObjects_length db.tracking_objects t0.imei (h3 t0 ht0))
    rcases hO with ⟨o1, hO⟩
    have hout : out =
        { sn := 1
          terminal_id := pyOr (t1.bind TagRow.imei) "Unknown"
          tracking_object := pyOr (o1.bind TrackingObjectRow.name) "Unknown"
          tracking_time := r.tracking_time
          gps_x := r.gps_x
          gps_y := r.gps_y } := by
      have := (get_route_by_id_of_join db id r t1 o1 hp hr hsn hT hO).symm.trans hget
      exact (Option.some.inj this).symm
    rcases List.mem_filter.mp hxmem with ⟨hxm, _⟩
    rcases List.mem_flatMap.mp hxm with ⟨r2, hr2, hx1⟩
    rcases List.mem_flatMap.mp hx1 with ⟨t2, ht2, hx2⟩
    rcases List.mem_flatMap.mp hx2 with ⟨o2, ho2, hx3⟩
    rcases List.mem_map.mp hx3 with ⟨g2, _, hxeq⟩
    have hr2r : r2 = r := by
      refine key_inj_of_pairwise RouteRow.sn db.routes hp r2 hr2 r hr ?_
      have : x.1 = r2 := by rw [← hxeq]
      rw [← this, hxsn, hsn]
    subst hr2r
    have ht2t : t2 = t1 := by
      rw [hT] at ht2
      simpa using ht2
    subst ht2t
    have ho2o : o2 = o1 := by
      rw [hO] at ho2
      simpa using ho2
    subst ho2o
    constructor
    · rw [← hxeq, hout]
    · rw [← hxeq, hout]

/-- C8 witness rows. -/
def alarmC8a : AlarmRow :=
  { sn := 1, organization := "acme", imei := some "111", warn_type := "geofence",
    time := 10, check_the_time := none, check_time := none, is_handled := false,
    handled_by := none, handled_at := none, handle_reason := none }

/-- C8 witness row resolved through the tag to the tracking object. -/
def alarmC8b : AlarmRow :=
  { sn := 2, organization := "acme", imei := some "222", warn_type := "geofence",
    time := 20, check_the_time := none, check_time := none, is_handled := false,
    handled_by := none, handled_at := none, handle_reason := none }

/-- C8 witness tag. -/
def tagC8 : TagRow :=
  { sn := 7, organization := "acme", imei := some "222", signal := none,
    power := none, charge_status := none, tracking_update_time := none,
    data_update_time := none, bluetooth_mark := none }

/-- C8 witness tracking object. -/
def tobC8 : TrackingObjectRow :=
  { sn := 3, organization := "acme", name := some "Forklift-1", role := none,
    mac := some "222" }

/-- C8 witness database. -/
def dbC8 : DB :=
  { alarms := [alarmC8a, alarmC8b]
    tags := [tagC8]
    tracking_objects := [tobC8]
    organizations := [{ id := 5, organization_name := "acme", title := none }]
    routes := [] }

/-- C8 witness item: what get_alarm_by_id returns for alarm 2. -/
def outC8 : AlarmOut :=
  { sn := 2, organization := "acme", imei := "222", tracking_object := "Forklift-1",
    warn_type := "geofence", time := 20, check_the_time := none, check_time := none,
    is_handled := false, handled_by := none, handled_at := none, handle_reason := none }

/-- C8 witness: get_alarm_by_id returns the item, the corresponding
display row is in the list, and by the theorem the list row equals the
item returned by get. -/
theorem trakr_C8_witness :
    get_alarm_by_id dbC8 2 = some outC8 ∧
    alarmDisplay (alarmC8b, some tagC8, some tobC8) ∈
      (get_alarms_with_filters dbC8 { organization := "acme" }).alarms ∧
    alarmDisplay (alarmC8b, some tagC8, some tobC8) = outC8 :=
  ⟨by decide, by decide,
   trakr_C8.1 dbC8 { organization := "acme" } 2 outC8 (by decide) (by decide)
     (by decide) (by decide) (alarmDisplay (alarmC8b, some tagC8, some tobC8))
     (by decide) (by decide)⟩

theorem flatMap_filter_ne {α β : Type} [DecidableEq α] (t : α) (g : α → List β)
    (hg : g t = []) : ∀ l : List α, l.flatMap g = (l.filter (fun u => u ≠ t)).flatMap g := by
  intro l
  induction l with
  | nil => rfl
  | cons b bs ih =>
    rw [List.flatMap_cons, List.filter_cons]
    by_cases hb : b = t
    · subst hb
      rw [hg, if_neg (by simp), List.nil_append]
      exact ih
    · rw [if_pos (by simpa using hb), List.flatMap_cons, ih]

/-- C10: a tag whose organization string matches no Organizations row is
invisible through the inner join: it contributes no row to the tag list,
removing it from the table changes neither the returned rows nor the
total count, and get_tag_by_id on its key returns none. -/
theorem trakr_C10 : ∀ (db : DB) (f : TagFilter) (t : TagRow),
    t ∈ db.tags →
    db.organizations.filter (fun o => o.organization_name = t.organization) = [] →
    db.tags.Pairwise (fun x y => x.sn ≠ y.sn) →
    (∀ row ∈ (get_tags_with_filters db f).tags, row.sn ≠ t.sn) ∧
    get_tags_with_filters db f =
      get_tags_with_filters { db with tags := db.tags.filter (fun u => u ≠ t) } f ∧
    get_tag_by_id db t.sn = none := by
  intro db f t ht horph hp
  have horg : tagOrgJoin db.organizations t = [] := horph
  refine ⟨?_, ?_, ?_⟩
  · intro row hrow heq
    rcases List.mem_map.mp hrow with ⟨x, hx, hdx⟩
    have hxJ : x ∈ tagJoinRows db :=
      List.mem_of_mem_filter
        ((mem_sortLe _ _ _).mp (List.mem_of_mem_drop (List.mem_of_mem_take hx)))
    rcases List.mem_flatMap.mp hxJ with ⟨u, hu, hxm⟩
    rcases List.mem_map.mp hxm with ⟨o, ho, hxeq⟩
    have husn : u.sn = t.sn := by
      have : row.sn = u.sn := by rw [← hdx, ← hxeq]; rfl
      omega
    have hut : u = t := key_inj_of_pairwise TagRow.sn db.tags hp u hu t ht husn
    rw [hut, horg] at ho
    exact absurd ho (List.not_mem_nil o)
  · have hg : (fun u : TagRow => (tagOrgJoin db.organizations u).map
        (fun o => (u, o))) t = ([] : List (TagRow × OrganizationRow)) := by
      show (tagOrgJoin db.organizations t).map (fun o => (t, o)) = []
      rw [horg]
      rfl
    have hjoin : tagJoinRows { db with tags := db.tags.filter (fun u => u ≠ t) } =
        tagJoinRows db := by
      show (db.tags.filter (fun u => u ≠ t)).flatMap
          (fun u => (tagOrgJoin db.organizations u).map (fun o => (u, o))) =
        db.tags.flatMap (fun u => (tagOrgJoin db.organizations u).map (fun o => (u, o)))
      exact (flatMap_filter_ne t _ hg db.tags).symm
    simp only [get_tags_with_filters]
    rw [hjoin]
  · unfold get_tag_by_id
    rw [pairwise_filter_key TagRow.sn t.sn t db.tags hp ht rfl, List.flatMap_cons,
      List.flatMap_nil, List.append_nil, horg]
    rfl

/-- C10 witness orphan tag: its organization has no Organizations row. -/
def tagC10a : TagRow :=
  { sn := 7, organization := "ghost", imei := some "111", signal := none,
    power := none, charge_status := none, tracking_update_time := none,
    data_update_time := none, bluetooth_mark := none }

/-- C10 witness resolved tag. -/
def tagC10b : TagRow :=
  { sn := 8, organization := "acme", imei := some "222", signal := none,
    power := none, charge_status := none, tracking_update_time := none,
    data_update_time := none, bluetooth_mark := none }

/-- C10 witness database. -/
def dbC10 : DB :=
  { alarms := []
    tags := [tagC10a, tagC10b]
    tracking_objects := []
    organizations := [{ id := 5, organization_name := "acme", title := none }]
    routes := [] }

/-- C10 witness: every returned row avoids the orphan's key, the result
is unchanged when the orphan is removed from the table, and get on the
orphan's key returns none. -/
theorem trakr_C10_witness :
    (tagDisplay (tagC10b, { id := 5, organization_name := "acme", title := none })).sn ≠
      tagC10a.sn ∧
    get_tags_with_filters dbC10 { organization := none } =
      get_tags_with_filters
        { dbC10 with tags := dbC10.tags.filter (fun u => u ≠ tagC10a) }
        { organization := none } ∧
    get_tag_by_id dbC10 tagC10a.sn = none := by
  have h := trakr_C10 dbC10 { organization := none } tagC10a (by decide) (by decide)
    (by decide)
  exact ⟨h.1 (tagDisplay (tagC10b, { id := 5, organization_name := "acme", title := none }))
    (by decide), h.2.1, h.2.2⟩
